import Mathlib

/-!
Shallow embedding of `src/src/lib.rs` of the bevy-renderdoc-capture crate.

The crate wires RenderDoc frame capture into Bevy: a shared `AtomicBool`
latch (`capture_requested`), a render-schedule hook `start_capture` run at
`ExtractSchedule` that consumes the latch with `fetch_and(false, SeqCst)`
and calls the native `start_frame_capture`, and a hook
`after_render_end_capture` run after `RenderSet::Render` that closes an
active capture with `end_frame_capture`.  Atomics are modelled as plain
`Bool` values transformed by the operations the code performs, with
concurrency expressed as interleavings of those operations (the code uses
`Ordering::SeqCst` for every access).  Native calls and log statements are
recorded as explicit traces.
-/

/-- Log levels of the `debug!` / `info!` / `error!` macros used or discussed. -/
inductive LogLevel
  | debug
  | info
  | error
deriving DecidableEq, Repr

/-- The two native RenderDoc calls the crate issues
(`api.start_frame_capture(null(), null())` and
`api.end_frame_capture(null(), null())`). -/
inductive NativeCall
  | startFrameCapture
  | endFrameCapture
deriving DecidableEq, Repr

/-- Bevy key codes, as far as this crate distinguishes them: `F10` is the
preset default, any other key is opaque data. -/
inductive KeyCode
  | F10
  | F12
  | other : Nat → KeyCode
deriving DecidableEq, Repr

/-- `RenderDocTrigger.capture` (src/src/lib.rs:92-94): an unconditional
`self.is_capture_active.store(true, Ordering::SeqCst)` on the shared latch.
The argument is the latch value before the store; the result is the latch
value after it. -/
def RenderDocTrigger.capture (_latch : Bool) : Bool := true

/-- The `fetch_and(false, Ordering::SeqCst)` performed by `start_capture`
(src/src/lib.rs:167-169): atomically returns the old latch value and
replaces it with `old && false`. -/
def fetchAndFalse (latch : Bool) : Bool × Bool := (latch, latch && false)

/-- The `RenderDocData` resource (src/src/lib.rs:54-59), minus the `Mutex`
around the native handle: the shared latch value and the render-thread
session flag. -/
structure RenderDocData where
  capture_requested : Bool
  is_capture_active : Bool
deriving DecidableEq, Repr

/-- Result of running one render-schedule hook: the updated resource state,
the native calls issued, and the log records emitted during the hook. -/
structure StepOut where
  state : RenderDocData
  calls : List NativeCall
  logs : List LogLevel
deriving DecidableEq, Repr

/-- `start_capture` (src/src/lib.rs:166-175): consume the latch with
`fetch_and(false)`; if a request was pending, set `is_capture_active` and
call the native `start_frame_capture`.  The function contains no logging
and never reads `is_capture_active`. -/
def start_capture (s : RenderDocData) : StepOut :=
  let r := fetchAndFalse s.capture_requested
  if r.1 then
    { state := { capture_requested := r.2, is_capture_active := true },
      calls := [NativeCall.startFrameCapture],
      logs := [] }
  else
    { state := { s with capture_requested := r.2 },
      calls := [],
      logs := [] }

/-- `after_render_end_capture` (src/src/lib.rs:178-188): if no capture is
active, return; otherwise clear `is_capture_active` and call the native
`end_frame_capture`. -/
def after_render_end_capture (s : RenderDocData) : StepOut :=
  if !s.is_capture_active then
    { state := s, calls := [], logs := [] }
  else
    { state := { s with is_capture_active := false },
      calls := [NativeCall.endFrameCapture],
      logs := [] }

/-- `RenderDocPlugin` (src/src/lib.rs:62-64): the one configuration field,
the optional trigger key. -/
structure RenderDocPlugin where
  key_code : Option KeyCode
deriving DecidableEq, Repr

/-- `RenderDocPlugin::default` (src/src/lib.rs:97-103): preset key F10. -/
def RenderDocPlugin.default : RenderDocPlugin :=
  { key_code := some KeyCode.F10 }

/-- `RenderDocPlugin::new_with_trigger_key` (src/src/lib.rs:107-111). -/
def RenderDocPlugin.new_with_trigger_key (key_code : KeyCode) : RenderDocPlugin :=
  { key_code := some key_code }

/-- `RenderDocPlugin::new_without_trigger` (src/src/lib.rs:114-116). -/
def RenderDocPlugin.new_without_trigger : RenderDocPlugin :=
  { key_code := none }

/-- The resources `build` can insert into the app or its render sub-app. -/
inductive ResourceId
  | renderDocData
  | renderDocTrigger
deriving DecidableEq, Repr

/-- Observable outcome of `RenderDocPlugin::build`: logs emitted, which
render-schedule hooks were registered, which key (if any) the registered
input-hook closure watches, and which resources were inserted. -/
structure BuildResult where
  logs : List LogLevel
  startCaptureRegistered : Bool
  afterRenderEndCaptureRegistered : Bool
  inputHook : Option KeyCode
  resourcesInserted : List ResourceId
deriving DecidableEq, Repr

/-- `RenderDocPlugin::build` (src/src/lib.rs:119-163).  `loadOk` is the
outcome of `RenderDoc::new()`.  On failure the function logs at `debug!`
level and returns early: no hooks, no resources.  On success it logs at
`info!` level, registers `start_capture` on `ExtractSchedule` and
`after_render_end_capture` on `Render`, inserts `RenderDocData` into the
render sub-app, and, when `key_code` is `Some`, registers the input-hook
closure on `PostUpdate`.  No `RenderDocTrigger` resource is ever inserted
by any path of the source function. -/
def build (p : RenderDocPlugin) (loadOk : Bool) : BuildResult :=
  if loadOk then
    { logs := [LogLevel.info],
      startCaptureRegistered := true,
      afterRenderEndCaptureRegistered := true,
      inputHook := p.key_code,
      resourcesInserted := [ResourceId.renderDocData] }
  else
    { logs := [LogLevel.debug],
      startCaptureRegistered := false,
      afterRenderEndCaptureRegistered := false,
      inputHook := none,
      resourcesInserted := [] }

/-- Operations on the shared latch: `request` is `RenderDocTrigger.capture`,
`consume` is the `fetch_and(false)` inside `start_capture`. -/
inductive LatchOp
  | request
  | consume
deriving DecidableEq, Repr

/-- Run a sequence of latch operations from latch value `b`; returns the
final latch value and the list of results the consume operations returned,
in order. -/
def runLatch : Bool → List LatchOp → Bool × List Bool
  | b, [] => (b, [])
  | b, LatchOp.request :: rest => runLatch (RenderDocTrigger.capture b) rest
  | b, LatchOp.consume :: rest =>
      let f := fetchAndFalse b
      let r := runLatch f.2 rest
      (r.1, f.1 :: r.2)

/-- Count the maximal contiguous runs of `request` in an operation sequence;
the flag records whether the previous operation was a `request`. -/
def burstCountAux : Bool → List LatchOp → Nat
  | _, [] => 0
  | inBurst, LatchOp.request :: rest =>
      (if inBurst then 0 else 1) + burstCountAux true rest
  | _, LatchOp.consume :: rest => burstCountAux false rest

/-- Number of contiguous request-bursts in an operation sequence. -/
def burstCount (ops : List LatchOp) : Nat := burstCountAux false ops

/-- Whether the sequence contains at least one `consume`. -/
def hasConsume : List LatchOp → Bool
  | [] => false
  | LatchOp.consume :: _ => true
  | LatchOp.request :: rest => hasConsume rest

/-- Count the contiguous request-bursts that are followed, later in the
sequence, by at least one `consume`; the flag records whether the previous
operation was a `request`. -/
def consumedBurstAux : Bool → List LatchOp → Nat
  | _, [] => 0
  | inBurst, LatchOp.request :: rest =>
      (if inBurst then 0 else if hasConsume rest then 1 else 0) +
        consumedBurstAux true rest
  | _, LatchOp.consume :: rest => consumedBurstAux false rest

/-- Number of contiguous request-bursts followed by a later consume. -/
def consumedBurstCount (ops : List LatchOp) : Nat := consumedBurstAux false ops

/-- Iterate `RenderDocTrigger.capture` `n` times on a latch value. -/
def iterCapture : Nat → Bool → Bool
  | 0, b => b
  | n + 1, b => iterCapture n (RenderDocTrigger.capture b)

/-- Full per-cycle system state: the `RenderDocData` resource plus running
counts of the native begin/end calls issued so far. -/
structure SysState where
  data : RenderDocData
  begins : Nat
  ends : Nat
deriving DecidableEq, Repr

/-- A main-schedule `RenderDocTrigger.capture` arriving: sets the shared
latch, touches nothing else. -/
def reqStep (s : SysState) : SysState :=
  { s with
    data := { s.data with
              capture_requested := RenderDocTrigger.capture s.data.capture_requested } }

/-- Run the `start_capture` hook, accumulating its native calls. -/
def startStep (s : SysState) : SysState :=
  let o := start_capture s.data
  { data := o.state,
    begins := s.begins + o.calls.count NativeCall.startFrameCapture,
    ends := s.ends + o.calls.count NativeCall.endFrameCapture }

/-- Run the `after_render_end_capture` hook, accumulating its native calls. -/
def endStep (s : SysState) : SysState :=
  let o := after_render_end_capture s.data
  { data := o.state,
    begins := s.begins + o.calls.count NativeCall.startFrameCapture,
    ends := s.ends + o.calls.count NativeCall.endFrameCapture }

/-- One render cycle: requests may arrive before the cycle's
`start_capture` and between `start_capture` and `after_render_end_capture`. -/
structure RenderCycle where
  reqBeforeStart : Bool
  reqBeforeEnd : Bool
deriving DecidableEq, Repr

/-- Run one cycle: optional request, `start_capture`, optional request,
`after_render_end_capture`. -/
def runCycle (s : SysState) (c : RenderCycle) : SysState :=
  let s1 := if c.reqBeforeStart then reqStep s else s
  let s2 := startStep s1
  let s3 := if c.reqBeforeEnd then reqStep s2 else s2
  endStep s3

/-- The intermediate states of one cycle, after each of its four steps. -/
def cycleStates (s : SysState) (c : RenderCycle) : List SysState :=
  let s1 := if c.reqBeforeStart then reqStep s else s
  let s2 := startStep s1
  let s3 := if c.reqBeforeEnd then reqStep s2 else s2
  [s1, s2, s3, endStep s3]

/-- Run a list of cycles. -/
def runCycles (s : SysState) : List RenderCycle → SysState
  | [] => s
  | c :: cs => runCycles (runCycle s c) cs

/-- Every state reached while running a list of cycles, including the
initial one and every intra-cycle point. -/
def allStates (s : SysState) : List RenderCycle → List SysState
  | [] => [s]
  | c :: cs => s :: cycleStates s c ++ allStates (runCycle s c) cs

/-- System state right after `build` inserts `RenderDocData`
(src/src/lib.rs:144-150): latch cleared, no active session, no native
calls yet. -/
def initState : SysState :=
  { data := { capture_requested := false, is_capture_active := false },
    begins := 0, ends := 0 }

/-- The bracketing invariant: begin/end native call counts agree whenever
no session is active, and differ by exactly one while a session is open. -/
def Bracketed (s : SysState) : Prop :=
  (s.data.is_capture_active = false → s.begins = s.ends) ∧
  (s.data.is_capture_active = true → s.begins = s.ends + 1)

instance (s : SysState) : Decidable (Bracketed s) := by
  unfold Bracketed; infer_instance

/-- Bevy `ButtonInput` state for one key on one frame, modelled from the
host engine's documented semantics: `just_pressed` is true exactly on the
frame where the key went from not-pressed to pressed. -/
structure ButtonState where
  pressed : Bool
  wasPressed : Bool
deriving DecidableEq, Repr

/-- `ButtonInput::just_pressed`, the edge test used by the input-hook
closure (src/src/lib.rs:156). -/
def just_pressed (b : ButtonState) : Bool := b.pressed && !b.wasPressed

/-- The input-hook closure registered by `build` (src/src/lib.rs:155-159):
reports whether it calls `trigger.capture()` this frame. -/
def input_hook (keys : ButtonState) : Bool := just_pressed keys

/-- Run the input hook over a per-frame pressed history; `prev` is the
pressed state of the frame before the window.  Returns, per frame, whether
the hook called `capture()`. -/
def hookCalls (prev : Bool) : List Bool → List Bool
  | [] => []
  | p :: rest => input_hook { pressed := p, wasPressed := prev } :: hookCalls p rest

/-! ## Helper lemmas -/

/-- Once the latch is true, further `capture` calls keep it true. -/
theorem iterCapture_of_true (n : Nat) : iterCapture n true = true := by
  induction n with
  | zero => rfl
  | succ m ih => simpa [iterCapture, RenderDocTrigger.capture] using ih

/-! ## Claim theorems -/

/-- Claim C1 (code evaluated at the failing input): `build` on the default
configuration with RenderDoc loading successfully inserts only the private
`RenderDocData` resource; the public `RenderDocTrigger` resource is not in
the inserted set on either branch of `build`. -/
theorem renderDocTrigger_never_inserted :
    (build RenderDocPlugin.default true).resourcesInserted
      = [ResourceId.renderDocData] ∧
    ResourceId.renderDocTrigger ∉
      (build RenderDocPlugin.default true).resourcesInserted ∧
    ResourceId.renderDocTrigger ∉
      (build RenderDocPlugin.default false).resourcesInserted := by
  decide

/-- Claim C2 counterexample: invoked in the double-activation state
(`is_capture_active = true`, no pending request), `start_capture` emits no
log at all (in particular none at error level), leaves the stale session
flag set, and makes no native call — it proceeds exactly as if no session
were open. -/
theorem start_capture_double_activation_cex :
    (start_capture { capture_requested := false, is_capture_active := true }).logs
      = [] ∧
    (start_capture { capture_requested := false,
                     is_capture_active := true }).state.is_capture_active
      = true ∧
    (start_capture { capture_requested := false, is_capture_active := true }).calls
      = [] := by
  decide

/-- Claim C2 (amended): if `start_capture` runs while `is_capture_active`
is already true, the condition is silently ignored: no log is emitted;
with no pending request the state and native-call trace are untouched, and
with a pending request a second begin call is issued without any end call
closing the stale session. -/
theorem start_capture_double_activation (s : RenderDocData)
    (h : s.is_capture_active = true) :
    (start_capture s).logs = [] ∧
    (s.capture_requested = false →
      (start_capture s).state = s ∧ (start_capture s).calls = []) ∧
    (s.capture_requested = true →
      (start_capture s).state.is_capture_active = true ∧
      (start_capture s).calls = [NativeCall.startFrameCapture] ∧
      NativeCall.endFrameCapture ∉ (start_capture s).calls) := by
  obtain ⟨cr, ca⟩ := s
  cases ca with
  | false => cases h
  | true => cases cr <;> simp [start_capture, fetchAndFalse]

/-- Witness for the amended C2 theorem at the concrete double-activation
state with no pending request. -/
theorem start_capture_double_activation_witness :
    ({ capture_requested := false, is_capture_active := true } :
        RenderDocData).is_capture_active = true ∧
    ((start_capture { capture_requested := false, is_capture_active := true }).logs
        = [] ∧
      (({ capture_requested := false, is_capture_active := true } :
          RenderDocData).capture_requested = false →
        (start_capture { capture_requested := false, is_capture_active := true }).state
            = { capture_requested := false, is_capture_active := true } ∧
        (start_capture { capture_requested := false,
                         is_capture_active := true }).calls = []) ∧
      (({ capture_requested := false, is_capture_active := true } :
          RenderDocData).capture_requested = true →
        (start_capture { capture_requested := false,
                         is_capture_active := true }).state.is_capture_active
            = true ∧
        (start_capture { capture_requested := false,
                         is_capture_active := true }).calls
            = [NativeCall.startFrameCapture] ∧
        NativeCall.endFrameCapture ∉
          (start_capture { capture_requested := false,
                           is_capture_active := true }).calls)) :=
  ⟨rfl, start_capture_double_activation
    { capture_requested := false, is_capture_active := true } rfl⟩

/-- Claim C5: when `RenderDoc::new()` fails, `build` logs once at debug
(diagnostic) level, registers neither render-schedule hook and no input
hook, and returns normally; when it succeeds, it logs at info level and
registers both render-schedule hooks. -/
theorem build_failure_inert (p : RenderDocPlugin) :
    (build p false).logs = [LogLevel.debug] ∧
    (build p false).startCaptureRegistered = false ∧
    (build p false).afterRenderEndCaptureRegistered = false ∧
    (build p false).inputHook = none ∧
    (build p true).logs = [LogLevel.info] ∧
    (build p true).startCaptureRegistered = true ∧
    (build p true).afterRenderEndCaptureRegistered = true :=
  ⟨rfl, rfl, rfl, rfl, rfl, rfl, rfl⟩

/-- Claim C6: with no pending request, the `fetch_and(false)` consume
inside `start_capture` returns false, the hook leaves `is_capture_active`
(indeed the whole `RenderDocData` state) unchanged, and no native call is
made. -/
theorem start_capture_idle (s : RenderDocData)
    (h : s.capture_requested = false) :
    (fetchAndFalse s.capture_requested).1 = false ∧
    (start_capture s).state.is_capture_active = s.is_capture_active ∧
    (start_capture s).state = s ∧
    (start_capture s).calls = [] := by
  obtain ⟨cr, ca⟩ := s
  cases cr with
  | true => cases h
  | false => simp [start_capture, fetchAndFalse]

/-- Witness for C6 at the concrete state with no pending request and an
active session. -/
theorem start_capture_idle_witness :
    ({ capture_requested := false, is_capture_active := true } :
        RenderDocData).capture_requested = false ∧
    ((fetchAndFalse ({ capture_requested := false, is_capture_active := true } :
        RenderDocData).capture_requested).1 = false ∧
      (start_capture { capture_requested := false,
                       is_capture_active := true }).state.is_capture_active
        = ({ capture_requested := false, is_capture_active := true } :
            RenderDocData).is_capture_active ∧
      (start_capture { capture_requested := false, is_capture_active := true }).state
        = { capture_requested := false, is_capture_active := true } ∧
      (start_capture { capture_requested := false,
                       is_capture_active := true }).calls = []) :=
  ⟨rfl, start_capture_idle
    { capture_requested := false, is_capture_active := true } rfl⟩

/-- Claim C7: `RenderDocTrigger.capture` is idempotent — for any latch
state, calling it `n ≥ 1` times has the same effect as calling it once,
and that effect is a pending latch. -/
theorem capture_idempotent (n : Nat) (b : Bool) (h : 1 ≤ n) :
    iterCapture n b = iterCapture 1 b ∧ iterCapture 1 b = true := by
  cases n with
  | zero => cases h
  | succ m =>
      refine ⟨?_, rfl⟩
      show iterCapture m (RenderDocTrigger.capture b) = _
      simp [RenderDocTrigger.capture, iterCapture_of_true, iterCapture]

/-- Witness for C7: three captures on an initially cleared latch equal a
single capture, leaving the latch pending. -/
theorem capture_idempotent_witness :
    1 ≤ 3 ∧ (iterCapture 3 false = iterCapture 1 false ∧
      iterCapture 1 false = true) :=
  ⟨by decide, capture_idempotent 3 false (by decide)⟩

/-- Claim C8: with the key released before the window and then reported
pressed for 10 consecutive frames, the input-hook closure calls
`trigger.capture()` exactly once, on the frame of the
not-pressed-to-pressed transition. -/
theorem input_hook_edge_trigger :
    hookCalls false (List.replicate 10 true)
      = true :: List.replicate 9 false ∧
    (hookCalls false (List.replicate 10 true)).count true = 1 := by
  decide

/-- Claim C9: under sequentially consistent interleaving of one
`capture()` store and one `fetch_and(false)` consume on a cleared latch,
exactly one of {the request is consumed by this consume, the request
remains pending for the next consume} holds — never both, never neither. -/
theorem latch_no_torn_state (ops : List LatchOp)
    (h : ops = [LatchOp.request, LatchOp.consume] ∨
         ops = [LatchOp.consume, LatchOp.request]) :
    (((runLatch false ops).2.count true = 1 ∧ (runLatch false ops).1 = false) ∧
        ¬((runLatch false ops).2.count true = 0 ∧ (runLatch false ops).1 = true)) ∨
    (((runLatch false ops).2.count true = 0 ∧ (runLatch false ops).1 = true) ∧
        ¬((runLatch false ops).2.count true = 1 ∧ (runLatch false ops).1 = false)) := by
  rcases h with h | h <;> subst h <;> decide

/-- Witness for C9 at the interleaving where the store lands first. -/
theorem latch_no_torn_state_witness :
    ([LatchOp.request, LatchOp.consume] = [LatchOp.request, LatchOp.consume] ∨
      [LatchOp.request, LatchOp.consume] = [LatchOp.consume, LatchOp.request]) ∧
    ((((runLatch false [LatchOp.request, LatchOp.consume]).2.count true = 1 ∧
          (runLatch false [LatchOp.request, LatchOp.consume]).1 = false) ∧
        ¬((runLatch false [LatchOp.request, LatchOp.consume]).2.count true = 0 ∧
          (runLatch false [LatchOp.request, LatchOp.consume]).1 = true)) ∨
      (((runLatch false [LatchOp.request, LatchOp.consume]).2.count true = 0 ∧
          (runLatch false [LatchOp.request, LatchOp.consume]).1 = true) ∧
        ¬((runLatch false [LatchOp.request, LatchOp.consume]).2.count true = 1 ∧
          (runLatch false [LatchOp.request, LatchOp.consume]).1 = false))) :=
  ⟨Or.inl rfl,
    latch_no_torn_state [LatchOp.request, LatchOp.consume] (Or.inl rfl)⟩

/-- Claim C10: the trigger-key behaviour is fixed at construction —
`default` binds F10, `new_with_trigger_key k` binds exactly `k`, and
`new_without_trigger` makes `build` register no input hook even when
RenderDoc loads. -/
theorem trigger_key_construction (k : KeyCode) :
    RenderDocPlugin.default.key_code = some KeyCode.F10 ∧
    (RenderDocPlugin.new_with_trigger_key k).key_code = some k ∧
    (build (RenderDocPlugin.new_with_trigger_key k) true).inputHook = some k ∧
    (build RenderDocPlugin.default true).inputHook = some KeyCode.F10 ∧
    (build RenderDocPlugin.new_without_trigger true).inputHook = none :=
  ⟨rfl, rfl, rfl, rfl, rfl⟩

/-- Generalised counting lemma for the latch: running from latch value `b`,
the consume operations return `true` exactly once per request-burst that a
later consume actually drains, plus once for an initial pending value that
some consume drains. -/
theorem runLatch_count_eq (ops : List LatchOp) :
    ∀ b, ((runLatch b ops).2).count true
      = consumedBurstAux b ops + (if b && hasConsume ops then 1 else 0) := by
  induction ops with
  | nil => intro b; simp [runLatch, consumedBurstAux, hasConsume]
  | cons op rest ih =>
    intro b
    cases op with
    | request =>
        have hr := ih true
        simp only [runLatch, RenderDocTrigger.capture, consumedBurstAux,
          hasConsume] at hr ⊢
        rw [hr]
        cases b <;> simp <;> omega
    | consume =>
        have hr := ih false
        simp only [runLatch, fetchAndFalse, Bool.and_false, consumedBurstAux,
          hasConsume, List.count_cons] at hr ⊢
        rw [hr]
        cases b <;> simp

/-- Claim C3 counterexample: for the sequence request, consume, request the
consumes return one `true`, but the sequence has two contiguous
request-bursts — the trailing unconsumed burst breaks the claimed
equality. -/
theorem latch_burst_cex :
    ((runLatch false [LatchOp.request, LatchOp.consume, LatchOp.request]).2).count
        true = 1 ∧
    burstCount [LatchOp.request, LatchOp.consume, LatchOp.request] = 2 := by
  decide

/-- Claim C3 (amended): starting from a cleared latch, the number of `true`
results returned by the consume operations equals the number of contiguous
request-bursts that are followed by at least one consume (a trailing burst
with no later consume stays pending and yields no `true`); in particular
three requests followed by two consumes yield `(true, false)`. -/
theorem latch_burst_collapsing (ops : List LatchOp) :
    ((runLatch false ops).2).count true = consumedBurstCount ops ∧
    (runLatch false [LatchOp.request, LatchOp.request, LatchOp.request,
        LatchOp.consume, LatchOp.consume]).2 = [true, false] := by
  refine ⟨?_, by decide⟩
  simpa [consumedBurstCount] using runLatch_count_eq ops false

/-- A state with no active session and balanced native-call counts is
bracketed. -/
theorem bracketed_of_closed (s : SysState)
    (ha : s.data.is_capture_active = false) (he : s.begins = s.ends) :
    Bracketed s :=
  ⟨fun _ => he, fun h => Bool.noConfusion (ha ▸ h)⟩

/-- One render cycle run from a closed, balanced state keeps every
intermediate state bracketed and ends closed and balanced again. -/
theorem runCycle_good (s : SysState) (c : RenderCycle)
    (ha : s.data.is_capture_active = false) (he : s.begins = s.ends) :
    (∀ t ∈ cycleStates s c, Bracketed t) ∧
    (runCycle s c).data.is_capture_active = false ∧
    (runCycle s c).begins = (runCycle s c).ends := by
  obtain ⟨⟨cr, ca⟩, b, e⟩ := s
  obtain ⟨r1, r2⟩ := c
  obtain rfl : ca = false := ha
  obtain rfl : b = e := he
  cases cr <;> cases r1 <;> cases r2 <;>
    simp [cycleStates, runCycle, reqStep, startStep, endStep, start_capture,
      after_render_end_capture, fetchAndFalse, RenderDocTrigger.capture,
      Bracketed, List.count_cons, List.count_nil]

/-- Running any list of cycles from a closed, balanced state keeps every
reached state bracketed and ends closed and balanced. -/
theorem runCycles_good (cs : List RenderCycle) :
    ∀ s : SysState, s.data.is_capture_active = false → s.begins = s.ends →
      (∀ t ∈ allStates s cs, Bracketed t) ∧
      (runCycles s cs).data.is_capture_active = false ∧
      (runCycles s cs).begins = (runCycles s cs).ends := by
  induction cs with
  | nil =>
      intro s ha he
      refine ⟨?_, ha, he⟩
      intro t ht
      simp only [allStates, List.mem_singleton] at ht
      subst ht
      exact bracketed_of_closed t ha he
  | cons c rest ih =>
      intro s ha he
      obtain ⟨hcyc, ha2, he2⟩ := runCycle_good s c ha he
      obtain ⟨hrest, hfin⟩ := ih (runCycle s c) ha2 he2
      refine ⟨?_, hfin⟩
      intro t ht
      simp only [allStates, List.mem_cons, List.mem_append, or_assoc] at ht
      rcases ht with rfl | h | h
      · exact bracketed_of_closed t ha he
      · exact hcyc t h
      · exact hrest t h

/-- Claim C4: over any sequence of render cycles from the initial state,
every reached state with `is_capture_active = false` has equal begin/end
native-call counts, every reached state with `is_capture_active = true`
has exactly one more begin than end (the session opened this cycle and not
yet closed), and after any prefix of whole cycles `is_capture_active` is
false again before the next cycle's `start_capture` runs. -/
theorem session_bracketing (cycles : List RenderCycle) (s : SysState)
    (n : Nat) (h : s ∈ allStates initState cycles) :
    (s.data.is_capture_active = false → s.begins = s.ends) ∧
    (s.data.is_capture_active = true → s.begins = s.ends + 1) ∧
    (runCycles initState (cycles.take n)).data.is_capture_active = false := by
  have h1 := runCycles_good cycles initState rfl rfl
  have h2 := runCycles_good (cycles.take n) initState rfl rfl
  have hb := h1.1 s h
  unfold Bracketed at hb
  exact ⟨hb.1, hb.2, h2.2.1⟩

/-- Witness for C4: one cycle with a request before its start; the state
right after `start_capture` (latch drained, session open, one begin call,
no end call) is in the reachable set and satisfies the conclusion. -/
theorem session_bracketing_witness :
    (⟨⟨false, true⟩, 1, 0⟩ : SysState) ∈
        allStates initState [⟨true, false⟩] ∧
    (((⟨⟨false, true⟩, 1, 0⟩ : SysState).data.is_capture_active = false →
        (⟨⟨false, true⟩, 1, 0⟩ : SysState).begins
          = (⟨⟨false, true⟩, 1, 0⟩ : SysState).ends) ∧
      ((⟨⟨false, true⟩, 1, 0⟩ : SysState).data.is_capture_active = true →
        (⟨⟨false, true⟩, 1, 0⟩ : SysState).begins
          = (⟨⟨false, true⟩, 1, 0⟩ : SysState).ends + 1) ∧
      (runCycles initState
          (List.take 1 [(⟨true, false⟩ : RenderCycle)])).data.is_capture_active
        = false) :=
  ⟨by decide,
    session_bracketing [⟨true, false⟩] ⟨⟨false, true⟩, 1, 0⟩ 1 (by decide)⟩
